import Mathlib

/-!
Shallow embedding of the `burger_shop` ink! smart contract (`src/lib.rs`).

Modelling conventions:
* `AccountId` and `Balance` (`u128`) are modelled as `Nat`; `u128` arithmetic
  is overflow-checked (`cargo-contract` builds contracts with
  `overflow-checks = true`, so an overflowing `+` or `*` panics), modelled by
  `checkedAdd` / `checkedMul` returning `none` on overflow.
* A Rust panic (`assert!`, `expect`) inside a message reverts the whole
  transaction, leaving no observable state change; it is modelled by the
  `Outcome.trap` constructor, which carries a tag naming the assertion that
  fired but no state.
* The host environment (`caller`, `account_id`, `transferred_value`) is an
  explicit `Env` argument, and the outcome of the host fund-transfer
  primitive `self.env().transfer(..)` is an explicit `Bool` argument
  (`transfer_ok`), since the host treats it as an atomic call that either
  succeeds or fails.
* `ink::storage::Mapping` is modelled as an association list where `insert`
  prepends and `get` takes the most recent binding (`List.find?`), which is
  the observable last-write-wins behaviour of the real mapping.
* `u32` values (`FoodItem.amount`, order ids) are modelled as `Nat`; the
  `orders.len() as u32` truncation in the source is kept as `% 2 ^ 32`.
-/

abbrev AccountId := Nat
abbrev Balance := Nat

/-- Overflow-checked `u128` addition: `some` of the sum when it fits in a
`u128`, `none` (panic) otherwise. -/
def checkedAdd (a b : Nat) : Option Nat :=
  if a + b < 2 ^ 128 then some (a + b) else none

/-- `u128::checked_mul`: `some` of the product when it fits in a `u128`,
`none` otherwise. -/
def checkedMul (a b : Nat) : Option Nat :=
  if a * b < 2 ^ 128 then some (a * b) else none

/-- `enum BurgerMenu` (src/lib.rs lines 83-87). -/
inductive BurgerMenu where
  | cheeseBurger
  | chickenBurger
  | veggieBurger
  deriving DecidableEq, Repr

/-- `BurgerMenu::price` (src/lib.rs lines 89-95). -/
def BurgerMenu.price : BurgerMenu → Balance
  | .cheeseBurger => 12
  | .veggieBurger => 10
  | .chickenBurger => 15

/-- `struct FoodItem` (src/lib.rs lines 60-63); `amount` is a `u32` in the
source. -/
structure FoodItem where
  burger_menu : BurgerMenu
  amount : Nat
  deriving DecidableEq, Repr

/-- `FoodItem::price` (src/lib.rs lines 65-75): the per-variant unit price
times the quantity.  For any `u32` amount the product is far below `2 ^ 128`,
so the source's unchecked `u128` multiplication cannot overflow there; a
hypothetically overflowing product is caught by the checked accumulation in
`Order.totalPrice` below, which panics exactly where the source build would. -/
def FoodItem.price (item : FoodItem) : Balance :=
  match item.burger_menu with
  | .cheeseBurger => BurgerMenu.cheeseBurger.price * item.amount
  | .chickenBurger => BurgerMenu.chickenBurger.price * item.amount
  | .veggieBurger => BurgerMenu.veggieBurger.price * item.amount

/-- `struct Order` (src/lib.rs lines 25-31). -/
structure Order where
  list_of_items : List FoodItem
  customer : AccountId
  total_price : Balance
  paid : Bool
  order_id : Nat
  deriving DecidableEq, Repr

/-- `Order::total_price` (src/lib.rs lines 45-51): `total += item.price()`
over the list, overflow-checked.  (Named `totalPrice` because the record
projection already takes the snake_case name.) -/
def Order.totalPrice (list_of_items : List FoodItem) : Option Balance :=
  list_of_items.foldl (fun total item => total.bind fun t => checkedAdd t item.price)
    (some 0)

/-- `Order::new` (src/lib.rs lines 34-43): computes the total price and
builds the record with `paid: false`. -/
def Order.new (list_of_items : List FoodItem) (customer : AccountId) (id : Nat) :
    Option Order :=
  (Order.totalPrice list_of_items).map fun tp =>
    { list_of_items := list_of_items
      customer := customer
      total_price := tp
      paid := false
      order_id := id }

/-- `enum BurgerShopError` (src/lib.rs lines 101-105). -/
inductive BurgerShopError where
  | PaymentError
  | OrderNotCompleted
  deriving DecidableEq, Repr

/-- Tags identifying which panic (`assert!` / `expect`) reverted the
transaction. -/
inductive Trap where
  /-- Fired by the assert at line 162, message: You are not the customer! -/
  | notCustomer
  /-- Fired by the assert at line 169, message: Can't take an empty order -/
  | emptyOrderItem
  /-- Fired by `u128` overflow inside the `Order::total_price` accumulation -/
  | addOverflow
  /-- Fired by the assert at line 180 on `order.paid` -/
  | alreadyPaid
  /-- Fired by the `checked_mul` expect at line 194, message: Overflow!!! -/
  | mulOverflow
  /-- Fired by the assert at line 189, message: Please pay complete amount -/
  | incorrectAmount
  deriving DecidableEq, Repr

/-- `struct BurgerShop` storage (src/lib.rs lines 14-17): the orders vector
and the id-to-order mapping. -/
structure BurgerShop where
  orders : List (Nat × Order)
  orders_mapping : List (Nat × Order)
  deriving DecidableEq, Repr

/-- `Mapping::get`: most recent binding for the key. -/
def mappingGet (m : List (Nat × Order)) (id : Nat) : Option Order :=
  (m.find? fun p => p.1 == id).map fun p => p.2

/-- `BurgerShop::new` constructor (src/lib.rs lines 145-153). -/
def BurgerShop.new : BurgerShop :=
  { orders := [], orders_mapping := [] }

/-- Result of one `take_order_and_payment` call: normal return (`ok` /
`err`, each carrying the post-state) or a panic that reverts the
transaction (`trap`, no state). -/
inductive Outcome where
  | ok (order : Order) (shop : BurgerShop)
  | err (e : BurgerShopError) (shop : BurgerShop)
  | trap (t : Trap)
  deriving DecidableEq, Repr

/-- Host data for one message call (src/lib.rs: `self.env().caller()`,
`self.env().account_id()`, `self.env().transferred_value()`). -/
structure Env where
  caller : AccountId
  account_id : AccountId
  transferred_value : Balance
  deriving DecidableEq, Repr

/-- `BurgerShop::take_order_and_payment` (src/lib.rs lines 157-230).
`transfer_ok` is the outcome of the host transfer primitive at line 206. -/
def BurgerShop.take_order_and_payment (env : Env) (transfer_ok : Bool)
    (shop : BurgerShop) (list_of_items : List FoodItem) : Outcome :=
  -- line 162: assert!(caller != self.env().account_id())
  if env.caller = env.account_id then .trap .notCustomer
  -- lines 168-170: for item in &list_of_items { assert!(item.amount > 0) }
  else if list_of_items.any (fun item => item.amount == 0) then .trap .emptyOrderItem
  else
    -- line 173: let id = self.orders.len() as u32
    let id := shop.orders.length % 2 ^ 32
    -- line 176: let total_price = Order::total_price(&list_of_items)
    match Order.totalPrice list_of_items with
    | none => .trap .addOverflow
    | some total_price =>
      -- line 177: let mut order = Order::new(list_of_items, caller, id)
      match Order.new list_of_items env.caller id with
      | none => .trap .addOverflow
      | some order0 =>
        -- line 178: order.total_price = total_price
        let order : Order := { order0 with total_price := total_price }
        -- lines 180-183: assert!(order.paid == false)
        if order.paid then .trap .alreadyPaid
        else
          -- lines 185-197: assert!(transfered_val == total_price.checked_mul(1e12).expect(..))
          match checkedMul order.total_price 1000000000000 with
          | none => .trap .mulOverflow
          | some expected =>
            if env.transferred_value = expected then
              -- lines 206-229: match self.env().transfer(..)
              if transfer_ok then
                -- line 212: let id = self.orders.len() as u32
                let id2 := shop.orders.length % 2 ^ 32
                -- line 214: order.paid = true
                let paid_order : Order := { order with paid := true }
                -- lines 224-226: insert into mapping, push to vector, Ok(order)
                .ok paid_order
                  { orders := shop.orders ++ [(id2, paid_order)]
                    orders_mapping := (id2, paid_order) :: shop.orders_mapping }
              else .err .PaymentError shop
            else .trap .incorrectAmount

/-- `BurgerShop::get_single_order` (src/lib.rs lines 234-239): read-only;
`none` models the `expect("Oh no, Order not found")` panic. -/
def BurgerShop.get_single_order (shop : BurgerShop) (id : Nat) : Option Order :=
  mappingGet shop.orders_mapping id

/-- `BurgerShop::get_orders` (src/lib.rs lines 243-252): `Some` of the whole
vector when non-empty, `None` otherwise. -/
def BurgerShop.get_orders (shop : BurgerShop) : Option (List (Nat × Order)) :=
  if shop.orders.length > 0 then some shop.orders else none

/-- States reachable from the freshly constructed contract by successful
`take_order_and_payment` calls (a reverted or `Err` call leaves the state of
some earlier reachable point, so only `ok` steps create new states). -/
inductive Reachable : BurgerShop → Prop
  | base : Reachable BurgerShop.new
  | step {env : Env} {tOk : Bool} {s : BurgerShop} {items : List FoodItem}
      {o : Order} {s' : BurgerShop} :
      Reachable s →
      BurgerShop.take_order_and_payment env tOk s items = Outcome.ok o s' →
      Reachable s'

/-- The orders vector has dense identifiers: entry `k` carries id `k`. -/
def dense_ids (s : BurgerShop) : Prop :=
  ∀ k (h : k < s.orders.length), (s.orders.get ⟨k, h⟩).1 = k

/-- The mapping agrees with the vector: looking an id up in the mapping is
looking it up in the orders vector. -/
def mapping_sync (s : BurgerShop) : Prop :=
  ∀ id, mappingGet s.orders_mapping id = (s.orders.find? fun p => p.1 == id).map fun p => p.2

/- Concrete sample data used by witnesses and counterexamples. -/

/-- One cheese burger: total price 12. -/
def sampleItems : List FoodItem := [{ burger_menu := .cheeseBurger, amount := 1 }]

/-- A customer (account 1) calling the contract (account 0) with the exact
converted amount `12 * 10^12`. -/
def sampleEnv : Env := { caller := 1, account_id := 0, transferred_value := 12000000000000 }

/-- The stored order a successful `sampleEnv`/`sampleItems` call produces. -/
def sampleOrder : Order :=
  { list_of_items := sampleItems, customer := 1, total_price := 12, paid := true, order_id := 0 }

/-- The contract state after that successful call. -/
def sampleShop : BurgerShop :=
  { orders := [(0, sampleOrder)], orders_mapping := [(0, sampleOrder)] }

/-- A customer tendering exactly `total_price` (12), without the `10^12`
conversion. -/
def envExactPrice : Env := { caller := 1, account_id := 0, transferred_value := 12 }

/-- A customer tendering 7, which matches neither 10 nor `10 * 10^12`. -/
def envWrongAmount : Env := { caller := 1, account_id := 0, transferred_value := 7 }

/-- One veggie burger: total price 10. -/
def veggieItems : List FoodItem := [{ burger_menu := .veggieBurger, amount := 1 }]

/-- A customer tendering 0. -/
def envZero : Env := { caller := 1, account_id := 0, transferred_value := 0 }

/-- The merchant (contract account 0) calling its own contract. -/
def envSelf : Env := { caller := 0, account_id := 0, transferred_value := 0 }

/-- An absurdly large quantity whose total price fits a `u128` but whose
`* 10^12` conversion does not. -/
def bigItems : List FoodItem := [{ burger_menu := .cheeseBurger, amount := 2 ^ 120 }]

/-- The zero-price order stored when an empty line-item list slips through. -/
def emptyOrder : Order :=
  { list_of_items := [], customer := 1, total_price := 0, paid := true, order_id := 0 }

/-- The contract state after the empty order is stored. -/
def emptyShop : BurgerShop :=
  { orders := [(0, emptyOrder)], orders_mapping := [(0, emptyOrder)] }

/-! ## Helper lemmas -/

theorem FoodItem.price_def (item : FoodItem) :
    item.price = item.burger_menu.price * item.amount := by
  rcases item with ⟨menu, amt⟩
  cases menu <;> rfl

theorem checkedMul_eq_some {a b c : Nat} :
    checkedMul a b = some c ↔ a * b < 2 ^ 128 ∧ c = a * b := by
  unfold checkedMul
  split <;> simp_all [eq_comm]

theorem totalPrice_foldl (items : List FoodItem) (acc : Nat)
    (h : acc + (items.map FoodItem.price).sum < 2 ^ 128) :
    items.foldl (fun total item => total.bind fun t => checkedAdd t item.price)
        (some acc) =
      some (acc + (items.map FoodItem.price).sum) := by
  induction items generalizing acc with
  | nil => simp
  | cons i is ih =>
    simp only [List.map_cons, List.sum_cons] at h ⊢
    have hlt : acc + i.price < 2 ^ 128 := by omega
    have hstep : ((some acc).bind fun t => checkedAdd t i.price) = some (acc + i.price) := by
      show checkedAdd acc i.price = some (acc + i.price)
      unfold checkedAdd
      rw [if_pos hlt]
    rw [List.foldl_cons, hstep, ih (acc + i.price) (by omega)]
    congr 1
    omega

/-- Inversion of a successful `take_order_and_payment` call: it only returns
`ok` when the transfer succeeded, the caller is not the merchant, no quantity
is zero, the total price was computed, the converted amount fits a `u128` and
was tendered exactly; the returned order is the paid order with the next
dense id, appended to the vector and inserted into the mapping. -/
theorem take_ok_inv {env : Env} {tOk : Bool} {s : BurgerShop} {items : List FoodItem}
    {o : Order} {s' : BurgerShop}
    (h : BurgerShop.take_order_and_payment env tOk s items = Outcome.ok o s') :
    tOk = true ∧ env.caller ≠ env.account_id ∧
      (∀ item ∈ items, item.amount ≠ 0) ∧
      ∃ tp, Order.totalPrice items = some tp ∧ tp * 1000000000000 < 2 ^ 128 ∧
        env.transferred_value = tp * 1000000000000 ∧
        o = { list_of_items := items, customer := env.caller, total_price := tp,
              paid := true, order_id := s.orders.length % 2 ^ 32 } ∧
        s' = { orders := s.orders ++ [(s.orders.length % 2 ^ 32, o)],
               orders_mapping := (s.orders.length % 2 ^ 32, o) :: s.orders_mapping } := by
  by_cases hc : env.caller = env.account_id
  · simp [BurgerShop.take_order_and_payment, hc] at h
  by_cases ha : (items.any fun item => item.amount == 0) = true
  · simp [BurgerShop.take_order_and_payment, hc, ha] at h
  cases htp : Order.totalPrice items with
  | none => simp [BurgerShop.take_order_and_payment, hc, ha, Order.new, htp] at h
  | some tp =>
    cases hm : checkedMul tp 1000000000000 with
    | none => simp [BurgerShop.take_order_and_payment, hc, ha, Order.new, htp, hm] at h
    | some e =>
      by_cases hv : env.transferred_value = e
      · cases tOk with
        | false => simp [BurgerShop.take_order_and_payment, hc, ha, Order.new, htp, hm, hv] at h
        | true =>
          simp [BurgerShop.take_order_and_payment, hc, ha, Order.new, htp, hm, hv] at h
          obtain ⟨hme, rfl⟩ := checkedMul_eq_some.mp hm
          obtain ⟨ho, hs⟩ := h
          subst ho
          subst hs
          refine ⟨rfl, hc, ?_, tp, rfl, hme, hv, rfl, rfl⟩
          intro item hmem hzero
          exact ha (List.any_eq_true.mpr ⟨item, hmem, by simp [hzero]⟩)
      · simp [BurgerShop.take_order_and_payment, hc, ha, Order.new, htp, hm, hv] at h

/-- Forward evaluation of `take_order_and_payment` when every check passes:
with a failing transfer the call returns `PaymentError` and the exact input
state; with a succeeding transfer it stores the paid order. -/
theorem take_success (env : Env) (s : BurgerShop) (items : List FoodItem) (tp : Balance)
    (hc : env.caller ≠ env.account_id)
    (hz : ∀ item ∈ items, item.amount ≠ 0)
    (htp : Order.totalPrice items = some tp)
    (hm : tp * 1000000000000 < 2 ^ 128)
    (hv : env.transferred_value = tp * 1000000000000) :
    BurgerShop.take_order_and_payment env false s items =
      Outcome.err BurgerShopError.PaymentError s ∧
    BurgerShop.take_order_and_payment env true s items =
      Outcome.ok
        { list_of_items := items, customer := env.caller, total_price := tp,
          paid := true, order_id := s.orders.length % 2 ^ 32 }
        { orders := s.orders ++ [(s.orders.length % 2 ^ 32,
            { list_of_items := items, customer := env.caller, total_price := tp,
              paid := true, order_id := s.orders.length % 2 ^ 32 })],
          orders_mapping := (s.orders.length % 2 ^ 32,
            { list_of_items := items, customer := env.caller, total_price := tp,
              paid := true, order_id := s.orders.length % 2 ^ 32 }) :: s.orders_mapping } := by
  have ha : ¬((items.any fun item => item.amount == 0) = true) := by
    simp only [List.any_eq_true, beq_iff_eq]
    rintro ⟨x, hx, hx0⟩
    exact hz x hx hx0
  have hm' : checkedMul tp 1000000000000 = some (tp * 1000000000000) := by
    unfold checkedMul
    rw [if_pos hm]
  constructor <;>
    simp [BurgerShop.take_order_and_payment, hc, ha, Order.new, htp, hm', hv]

/-- Forward evaluation when the tendered value is not the converted total:
the exact-amount assertion fires. -/
theorem take_wrong_amount (env : Env) (tOk : Bool) (s : BurgerShop) (items : List FoodItem)
    (tp : Balance)
    (hc : env.caller ≠ env.account_id)
    (hz : ∀ item ∈ items, item.amount ≠ 0)
    (htp : Order.totalPrice items = some tp)
    (hm : tp * 1000000000000 < 2 ^ 128)
    (hv : env.transferred_value ≠ tp * 1000000000000) :
    BurgerShop.take_order_and_payment env tOk s items = Outcome.trap Trap.incorrectAmount := by
  have ha : ¬((items.any fun item => item.amount == 0) = true) := by
    simp only [List.any_eq_true, beq_iff_eq]
    rintro ⟨x, hx, hx0⟩
    exact hz x hx hx0
  have hm' : checkedMul tp 1000000000000 = some (tp * 1000000000000) := by
    unfold checkedMul
    rw [if_pos hm]
  simp [BurgerShop.take_order_and_payment, hc, ha, Order.new, htp, hm', hv]

/-- Forward evaluation when `total_price * 10^12` does not fit a `u128`:
the `checked_mul` expect fires, for either transfer outcome. -/
theorem take_mul_overflow (env : Env) (tOk : Bool) (s : BurgerShop) (items : List FoodItem)
    (tp : Balance)
    (hc : env.caller ≠ env.account_id)
    (hz : ∀ item ∈ items, item.amount ≠ 0)
    (htp : Order.totalPrice items = some tp)
    (hm : 2 ^ 128 ≤ tp * 1000000000000) :
    BurgerShop.take_order_and_payment env tOk s items = Outcome.trap Trap.mulOverflow := by
  have ha : ¬((items.any fun item => item.amount == 0) = true) := by
    simp only [List.any_eq_true, beq_iff_eq]
    rintro ⟨x, hx, hx0⟩
    exact hz x hx hx0
  have hm' : checkedMul tp 1000000000000 = none := by
    unfold checkedMul
    rw [if_neg (Nat.not_lt.mpr hm)]
  simp [BurgerShop.take_order_and_payment, hc, ha, Order.new, htp, hm']

/-- Calling as the merchant account itself fires the first assertion. -/
theorem take_self_trap (env : Env) (tOk : Bool) (s : BurgerShop) (items : List FoodItem)
    (hc : env.caller = env.account_id) :
    BurgerShop.take_order_and_payment env tOk s items = Outcome.trap Trap.notCustomer := by
  simp [BurgerShop.take_order_and_payment, hc]

/-- A non-merchant caller can never hit the merchant-caller assertion. -/
theorem take_nonself_no_selftrap (env : Env) (tOk : Bool) (s : BurgerShop)
    (items : List FoodItem) (hc : env.caller ≠ env.account_id) :
    BurgerShop.take_order_and_payment env tOk s items ≠ Outcome.trap Trap.notCustomer := by
  intro heq
  by_cases ha : (items.any fun item => item.amount == 0) = true
  · simp [BurgerShop.take_order_and_payment, hc, ha] at heq
  cases htp : Order.totalPrice items with
  | none => simp [BurgerShop.take_order_and_payment, hc, ha, Order.new, htp] at heq
  | some tp =>
    cases hmul : checkedMul tp 1000000000000 with
    | none => simp [BurgerShop.take_order_and_payment, hc, ha, Order.new, htp, hmul] at heq
    | some e =>
      by_cases hv : env.transferred_value = e
      · cases tOk <;>
          simp [BurgerShop.take_order_and_payment, hc, ha, Order.new, htp, hmul, hv] at heq
      · simp [BurgerShop.take_order_and_payment, hc, ha, Order.new, htp, hmul, hv] at heq

/-- In a list whose entry `k` carries key `off + k`, `find?` on a key that is
a member returns exactly that member. -/
theorem find?_of_dense (l : List (Nat × Order)) (off : Nat)
    (hd : ∀ k (hk : k < l.length), (l.get ⟨k, hk⟩).1 = off + k)
    (id : Nat) (o : Order) (hm : (id, o) ∈ l) :
    l.find? (fun p => p.1 == id) = some (id, o) := by
  induction l generalizing off with
  | nil => cases hm
  | cons hd0 tl ih =>
    have hhd : hd0.1 = off := by simpa using hd 0 (by simp)
    by_cases hid : id = off
    · have hhead : (id, o) = hd0 := by
        rcases List.mem_cons.mp hm with h | h
        · exact h
        · exfalso
          obtain ⟨⟨k, hk⟩, hget⟩ := List.mem_iff_get.mp h
          have h2 := hd (k + 1) (by simpa using Nat.succ_lt_succ hk)
          have h3 : ((hd0 :: tl).get ⟨k + 1, by simpa using Nat.succ_lt_succ hk⟩) =
              tl.get ⟨k, hk⟩ := rfl
          rw [h3, hget] at h2
          simp at h2
          omega
      rw [@List.find?_cons_of_pos _ (fun p => p.1 == id) hd0 tl (by simp [hhd, hid.symm]), hhead]
    · have hne : ¬((hd0.1 == id) = true) := by
        simp [hhd]
        exact fun h => hid h.symm
      rw [@List.find?_cons_of_neg _ (fun p => p.1 == id) hd0 tl hne]
      have hm' : (id, o) ∈ tl := by
        rcases List.mem_cons.mp hm with h | h
        · exfalso
          apply hid
          rw [← hhd, ← h]
        · exact h
      refine ih (off + 1) ?_ hm'
      intro k hk
      have h2 := hd (k + 1) (by simpa using Nat.succ_lt_succ hk)
      have h3 : ((hd0 :: tl).get ⟨k + 1, by simpa using Nat.succ_lt_succ hk⟩) =
          tl.get ⟨k, hk⟩ := rfl
      rw [h3] at h2
      rw [h2]
      omega

/-- Every reachable state stores only paid orders, in the vector and in the
mapping. -/
theorem reachable_all_paid {s : BurgerShop} (hs : Reachable s) :
    (∀ p ∈ s.orders, p.2.paid = true) ∧ (∀ p ∈ s.orders_mapping, p.2.paid = true) := by
  induction hs with
  | base => constructor <;> (intro p hp; simp [BurgerShop.new] at hp)
  | step hr heq ih =>
    obtain ⟨-, -, -, tp, -, -, -, ho, hs'⟩ := take_ok_inv heq
    subst hs'
    constructor
    · intro p hp
      rcases List.mem_append.mp hp with h | h
      · exact ih.1 p h
      · rw [List.mem_singleton.mp h, ho]
    · intro p hp
      rcases List.mem_cons.mp hp with h | h
      · rw [h, ho]
      · exact ih.2 p h

/-- The fresh contract has (vacuously) dense ids. -/
theorem dense_ids_new : dense_ids BurgerShop.new := by
  intro k hk
  simp [BurgerShop.new] at hk

/-- The one-order sample state has a mapping in sync with its vector. -/
theorem mapping_sync_sample : mapping_sync sampleShop := fun _ => rfl

/-- The one-order sample state has dense ids. -/
theorem dense_ids_sample : dense_ids sampleShop := by
  intro k hk
  have hk1 : k = 0 := by
    simp [sampleShop] at hk
    omega
  subst hk1
  rfl

/-- The one-order sample state is reachable from the fresh contract. -/
theorem reachable_sample : Reachable sampleShop :=
  @Reachable.step sampleEnv true BurgerShop.new sampleItems sampleOrder sampleShop
    Reachable.base (by decide)

/-! ## Claim theorems -/

/-- **C3**: for every list of line items whose total fits a `u128` balance,
the computed total price is exactly the sum over the line items of the
catalog unit price of the item times its quantity. -/
theorem total_price_is_sum_of_unit_price_times_qty (items : List FoodItem)
    (h : (items.map fun item => item.burger_menu.price * item.amount).sum < 2 ^ 128) :
    Order.totalPrice items =
      some ((items.map fun item => item.burger_menu.price * item.amount).sum) := by
  have hfun : (fun item : FoodItem => item.burger_menu.price * item.amount) =
      FoodItem.price := funext fun i => (FoodItem.price_def i).symm
  rw [hfun] at h ⊢
  have := totalPrice_foldl items 0 (by rwa [Nat.zero_add])
  unfold Order.totalPrice
  simpa using this

/-- Witness for C3 at the one-cheese-burger order: the computed total is 12. -/
theorem total_price_is_sum_witness : Order.totalPrice sampleItems = some 12 := by
  have h := total_price_is_sum_of_unit_price_times_qty sampleItems (by decide)
  simpa using h

/-- Claim C1 (counterexample): for the one-cheese-burger order the total
price is 12, the customer tenders exactly 12 — equal to `total_price`, as the
claim requires for acceptance — and yet the payment is rejected by the
exact-amount assertion, because the code compares the tendered value against
`total_price * 10^12`, not against `total_price`. -/
theorem payment_at_unconverted_total_rejected :
    Order.totalPrice sampleItems = some 12 ∧
    envExactPrice.transferred_value = 12 ∧
    BurgerShop.take_order_and_payment envExactPrice true BurgerShop.new sampleItems =
      Outcome.trap Trap.incorrectAmount := by
  refine ⟨by decide, rfl, by decide⟩

/-- Claim C1 (amended): for every order and tendered amount, payment is
accepted only when the tendered amount equals `total_price * 10^12` (the
token-unit conversion); when it differs, the call fails with the
exact-amount assertion (the `IncorrectAmount` failure) and the transaction
reverts, so no order is returned or stored and `paid` is never observed
`true`. -/
theorem payment_requires_exact_converted_amount (env : Env) (tOk : Bool) (s : BurgerShop)
    (items : List FoodItem) (tp : Balance)
    (hc : env.caller ≠ env.account_id)
    (hz : ∀ item ∈ items, item.amount ≠ 0)
    (htp : Order.totalPrice items = some tp)
    (hmul : tp * 1000000000000 < 2 ^ 128)
    (hv : env.transferred_value ≠ tp * 1000000000000) :
    BurgerShop.take_order_and_payment env tOk s items = Outcome.trap Trap.incorrectAmount ∧
    ∀ (o : Order) (s' : BurgerShop),
      BurgerShop.take_order_and_payment env tOk s items ≠ Outcome.ok o s' := by
  have h := take_wrong_amount env tOk s items tp hc hz htp hmul hv
  exact ⟨h, fun o s' hok => by rw [h] at hok; cases hok⟩

/-- Witness for C1: a customer tendering 7 for a 10-priced veggie order is
rejected by the exact-amount assertion. -/
theorem payment_requires_exact_converted_amount_witness :
    BurgerShop.take_order_and_payment envWrongAmount true BurgerShop.new veggieItems =
      Outcome.trap Trap.incorrectAmount :=
  (payment_requires_exact_converted_amount envWrongAmount true BurgerShop.new veggieItems 10
    (by decide) (by decide) (by decide) (by decide) (by decide)).1

/-- Claim C2: when the host fund-transfer primitive fails, the operation
returns `PaymentError` and the ledger state is exactly the input state (no
partial mutation); when it succeeds, all of funds-moved, `paid = true` and
order-stored happen together. -/
theorem transfer_failure_returns_payment_error_and_preserves_state (env : Env) (s : BurgerShop)
    (items : List FoodItem) (tp : Balance)
    (hc : env.caller ≠ env.account_id)
    (hz : ∀ item ∈ items, item.amount ≠ 0)
    (htp : Order.totalPrice items = some tp)
    (hmul : tp * 1000000000000 < 2 ^ 128)
    (hv : env.transferred_value = tp * 1000000000000) :
    BurgerShop.take_order_and_payment env false s items =
      Outcome.err BurgerShopError.PaymentError s ∧
    ∃ o : Order, o.paid = true ∧
      BurgerShop.take_order_and_payment env true s items =
        Outcome.ok o
          { orders := s.orders ++ [(s.orders.length % 2 ^ 32, o)],
            orders_mapping := (s.orders.length % 2 ^ 32, o) :: s.orders_mapping } := by
  obtain ⟨hfail, hsucc⟩ := take_success env s items tp hc hz htp hmul hv
  exact ⟨hfail, _, rfl, hsucc⟩

/-- Witness for C2: with a failing transfer the sample call returns
`PaymentError` and leaves the fresh contract state untouched. -/
theorem transfer_failure_witness :
    BurgerShop.take_order_and_payment sampleEnv false BurgerShop.new sampleItems =
      Outcome.err BurgerShopError.PaymentError BurgerShop.new :=
  (transfer_failure_returns_payment_error_and_preserves_state sampleEnv BurgerShop.new
    sampleItems 12 (by decide) (by decide) (by decide) (by decide) (by decide)).1

/-- Claim C4 (code bug): an empty line-item list is NOT rejected — the
per-item assertion is vacuous on an empty list — so the call succeeds,
stores a zero-price empty order and grows the ledger from length 0 to 1,
contradicting the claim (and the assertion's own message at line 169). -/
theorem empty_order_accepted_and_stored :
    BurgerShop.take_order_and_payment envZero true BurgerShop.new [] =
      Outcome.ok emptyOrder emptyShop ∧
    BurgerShop.new.orders.length = 0 ∧ emptyShop.orders.length = 1 := by
  refine ⟨by decide, rfl, rfl⟩

/-- Claim C5: the fresh ledger has dense ids, and every successful creation
(below the `u32` id-space bound) assigns the new order the id equal to the
previous ledger length, grows the ledger by one, preserves density (hence
uniqueness, monotonicity from 0, and no reuse), and leaves every existing
entry — id and order — untouched. -/
theorem order_ids_dense_and_assigned_by_ledger :
    dense_ids BurgerShop.new ∧
    ∀ (env : Env) (tOk : Bool) (s : BurgerShop) (items : List FoodItem)
      (o : Order) (s' : BurgerShop),
      BurgerShop.take_order_and_payment env tOk s items = Outcome.ok o s' →
      s.orders.length < 2 ^ 32 →
      dense_ids s →
      o.order_id = s.orders.length ∧
      s'.orders.length = s.orders.length + 1 ∧
      dense_ids s' ∧
      ∀ k (hk : k < s.orders.length) (hk' : k < s'.orders.length),
        s'.orders.get ⟨k, hk'⟩ = s.orders.get ⟨k, hk⟩ := by
  constructor
  · intro k hk
    simp [BurgerShop.new] at hk
  · intro env tOk s items o s' heq hlen hdense
    obtain ⟨-, -, -, tp, -, -, -, ho, hs'⟩ := take_ok_inv heq
    have hid : s.orders.length % 2 ^ 32 = s.orders.length := Nat.mod_eq_of_lt hlen
    have horders : s'.orders = s.orders ++ [(s.orders.length % 2 ^ 32, o)] := by
      rw [hs']
    refine ⟨by rw [ho]; exact hid, by rw [horders]; simp, ?_, ?_⟩
    · intro k hk
      rw [List.get_eq_getElem]
      simp only [horders] at hk ⊢
      simp only [List.length_append, List.length_cons, List.length_nil] at hk
      rcases Nat.lt_or_ge k s.orders.length with hlt | hge
      · rw [List.getElem_append_left hlt]
        have hd := hdense k hlt
        rw [List.get_eq_getElem] at hd
        exact hd
      · have hk0 : k = s.orders.length := by omega
        rw [List.getElem_concat_length _ _ _ hk0 (by simp; omega)]
        rw [hid, hk0]
    · intro k hk hk'
      rw [List.get_eq_getElem, List.get_eq_getElem]
      simp only [horders]
      exact List.getElem_append_left hk

/-- Witness for C5: the sample creation on the fresh ledger assigns id 0 and
grows the ledger to length 1. -/
theorem order_ids_witness :
    sampleOrder.order_id = 0 ∧ sampleShop.orders.length = 1 := by
  have h := order_ids_dense_and_assigned_by_ledger.2 sampleEnv true BurgerShop.new sampleItems
    sampleOrder sampleShop (by decide) (by decide) dense_ids_new
  exact ⟨h.1, h.2.1⟩

/-- Claim C6: in a state whose mapping is in sync with its dense-id orders
vector, `get_single_order` fails (panics with the order-not-found expect,
modelled as `none`) exactly for ids with no order in the ledger, and returns
the stored order for every id that exists; it is read-only by construction
(it takes the state and returns only an `Option Order`). -/
theorem get_single_order_spec (s : BurgerShop) (id : Nat)
    (hsync : mapping_sync s) (hdense : dense_ids s) :
    ((∀ o : Order, (id, o) ∉ s.orders) → s.get_single_order id = none) ∧
    (∀ o : Order, (id, o) ∈ s.orders → s.get_single_order id = some o) := by
  constructor
  · intro hno
    show mappingGet s.orders_mapping id = none
    rw [hsync id]
    have : s.orders.find? (fun p => p.1 == id) = none := by
      rw [List.find?_eq_none]
      intro p hp hpe
      have hid : p.1 = id := by simpa using hpe
      have hp2 : (p.1, p.2) ∈ s.orders := hp
      rw [hid] at hp2
      exact hno p.2 hp2
    rw [this]
    rfl
  · intro o hmem
    show mappingGet s.orders_mapping id = some o
    rw [hsync id]
    rw [find?_of_dense s.orders 0 (by intro k hk; simpa using hdense k hk) id o hmem]
    rfl

/-- Witness for C6: in the one-order sample state, id 0 is found and id 5
fails. -/
theorem get_single_order_witness :
    sampleShop.get_single_order 0 = some sampleOrder ∧
    sampleShop.get_single_order 5 = none := by
  constructor
  · exact (get_single_order_spec sampleShop 0 mapping_sync_sample dense_ids_sample).2
      sampleOrder (by simp [sampleShop])
  · refine (get_single_order_spec sampleShop 5 mapping_sync_sample dense_ids_sample).1 ?_
    intro o ho
    simp [sampleShop] at ho

/-- Claim C7 (counterexample): on the empty ledger `get_orders` returns
`none`, not `some` of an empty list as the claim states. -/
theorem get_orders_empty_is_none :
    BurgerShop.get_orders BurgerShop.new = none ∧
    BurgerShop.get_orders BurgerShop.new ≠ some ([] : List (Nat × Order)) := by
  refine ⟨rfl, by decide⟩

/-- Claim C7 (amended): `get_orders` never traps; it returns `some` of the
whole orders vector — all stored orders as (id, order) pairs in creation
order — when the ledger is non-empty, and `none` (rather than an empty
list) when the ledger is empty. -/
theorem get_orders_returns_all_or_none (s : BurgerShop) :
    (s.orders = [] → s.get_orders = none) ∧
    (s.orders ≠ [] → s.get_orders = some s.orders) := by
  constructor
  · intro h
    simp [BurgerShop.get_orders, h]
  · intro h
    simp [BurgerShop.get_orders, List.length_pos.mpr h]

/-- Witness for C7: the non-empty sample state returns its whole vector. -/
theorem get_orders_nonempty_witness :
    sampleShop.get_orders = some sampleShop.orders :=
  (get_orders_returns_all_or_none sampleShop).2 (by decide)

/-- Claim C8: order creation is rejected (the you-are-not-the-customer
assertion fires, reverting the call) exactly when the caller is the
merchant/contract account itself; a non-merchant caller can never hit that
check. -/
theorem merchant_caller_rejected (env : Env) (tOk : Bool) (s : BurgerShop)
    (items : List FoodItem) :
    (env.caller = env.account_id →
      BurgerShop.take_order_and_payment env tOk s items = Outcome.trap Trap.notCustomer) ∧
    (env.caller ≠ env.account_id →
      BurgerShop.take_order_and_payment env tOk s items ≠ Outcome.trap Trap.notCustomer) :=
  ⟨take_self_trap env tOk s items, take_nonself_no_selftrap env tOk s items⟩

/-- Witness for C8: the merchant (account 0) calling its own contract is
rejected by the first assertion. -/
theorem merchant_caller_rejected_witness :
    BurgerShop.take_order_and_payment envSelf true BurgerShop.new sampleItems =
      Outcome.trap Trap.notCustomer :=
  (merchant_caller_rejected envSelf true BurgerShop.new sampleItems).1 rfl

/-- Claim C9: in every reachable state, every order observable through the
orders vector, the id-to-order mapping, `get_single_order` or `get_orders`
has `paid = true`: an order is only persisted after its transfer succeeds,
and no operation mutates stored orders. -/
theorem stored_orders_all_paid (s : BurgerShop) (hs : Reachable s) :
    (∀ p ∈ s.orders, p.2.paid = true) ∧
    (∀ p ∈ s.orders_mapping, p.2.paid = true) ∧
    (∀ id o, s.get_single_order id = some o → o.paid = true) ∧
    (∀ l, s.get_orders = some l → ∀ p ∈ l, p.2.paid = true) := by
  obtain ⟨hv, hmap⟩ := reachable_all_paid hs
  refine ⟨hv, hmap, ?_, ?_⟩
  · intro id o hget
    obtain ⟨p, hfind, hpo⟩ := Option.map_eq_some'.mp hget
    exact hpo ▸ hmap p (List.mem_of_find?_eq_some hfind)
  · intro l hl p hp
    have : l = s.orders := by
      unfold BurgerShop.get_orders at hl
      split at hl
      · exact (Option.some.injEq _ _ ▸ hl).symm
      · cases hl
    exact hv p (this ▸ hp)

/-- Witness for C9: the order stored in the reachable sample state is paid. -/
theorem stored_orders_all_paid_witness : sampleOrder.paid = true :=
  (stored_orders_all_paid sampleShop reachable_sample).1 (0, sampleOrder) (by simp [sampleShop])

/-- Claim C10: the payment check compares the transferred value against
`total_price * 10^12`: when that product does not fit a `u128` the
overflow-checked multiplication traps for either transfer outcome (so such
an order can never be paid), and when it fits, a successful transfer yields
an accepted order exactly when the transferred value equals
`total_price * 10^12`. -/
theorem payment_check_uses_conversion (env : Env) (s : BurgerShop) (items : List FoodItem)
    (tp : Balance)
    (hc : env.caller ≠ env.account_id)
    (hz : ∀ item ∈ items, item.amount ≠ 0)
    (htp : Order.totalPrice items = some tp) :
    (2 ^ 128 ≤ tp * 1000000000000 →
      ∀ tOk, BurgerShop.take_order_and_payment env tOk s items = Outcome.trap Trap.mulOverflow) ∧
    (tp * 1000000000000 < 2 ^ 128 →
      ((∃ o s', BurgerShop.take_order_and_payment env true s items = Outcome.ok o s') ↔
        env.transferred_value = tp * 1000000000000)) := by
  constructor
  · intro hof tOk
    exact take_mul_overflow env tOk s items tp hc hz htp hof
  · intro hfits
    constructor
    · rintro ⟨o, s', hok⟩
      obtain ⟨-, -, -, tp', htp', -, hv, -, -⟩ := take_ok_inv hok
      rw [htp] at htp'
      cases htp'
      exact hv
    · intro hv
      exact ⟨_, _, (take_success env s items tp hc hz htp hfits hv).2⟩

/-- Witness for C10: an order of `2^120` cheese burgers has a `u128` total
price whose `* 10^12` conversion overflows, so the call traps and the order
can never be paid. -/
theorem payment_check_uses_conversion_witness :
    BurgerShop.take_order_and_payment envZero true BurgerShop.new bigItems =
      Outcome.trap Trap.mulOverflow :=
  (payment_check_uses_conversion envZero BurgerShop.new bigItems (12 * 2 ^ 120)
    (by decide) (by decide) (by decide)).1 (by decide) true
